import Mathlib

/-!
Shallow embedding of the gas-price cache and L2 extra-fee calculator of an
EVM transaction-relaying service, together with theorems checking the
natural-language specification of that code.

Modelling conventions:
* Rust `U256` values are natural numbers; operations that wrap reduce
  modulo `2 ^ 256` explicitly, and saturating operations clamp at
  `2 ^ 256 - 1`.  `u64`/`u128` values are plain `Nat`.
* `Instant` and `Duration` are natural numbers of milliseconds; an
  operation that reads the clock receives the current instant `now` as an
  explicit argument.
* The concurrent maps (`DashMap`) are association lists with
  insert-or-replace semantics; per-entry read/write locks disappear in the
  sequential embedding (each operation runs atomically against the state).
* Fallible operations return `Except TransactionError` paired with the
  resulting state.
-/

set_option maxRecDepth 10000

/-- Modulus of 256-bit unsigned arithmetic. -/
def U256_MOD : Nat := 2 ^ 256

/-- Largest 256-bit unsigned value. -/
def U256_MAX : Nat := 2 ^ 256 - 1

/-- Saturating 256-bit multiplication, as in `U256::saturating_mul`. -/
def satMul (a b : Nat) : Nat := min (a * b) U256_MAX

/-- Wrapping 256-bit addition, the release-mode semantics of `+` on `U256`. -/
def u256add (a b : Nat) : Nat := (a + b) % U256_MOD

/-- Wrapping 256-bit multiplication, the release-mode semantics of `*` on `U256`. -/
def u256mul (a b : Nat) : Nat := (a * b) % U256_MOD

/-- Wrapping 256-bit subtraction, the release-mode semantics of `-` on `U256`
(arguments are assumed already reduced below `2 ^ 256`). -/
def u256sub (a b : Nat) : Nat := (a + U256_MOD - b) % U256_MOD

/-- Floor division on `U256` (division never overflows). -/
def u256div (a b : Nat) : Nat := a / b

/-- Errors of the `TransactionError` enum that the embedded code can
produce (the two constructors actually used by these modules). -/
inductive TransactionError where
  | NetworkConfiguration (msg : String)
  | UnexpectedError (msg : String)
  deriving DecidableEq

/-- Message carried by a `TransactionError`; stands in for the `Display`
implementation used by `map_err(|e| ... e.to_string())`. -/
def TransactionError.toMessage : TransactionError → String
  | .NetworkConfiguration m => m
  | .UnexpectedError m => m

/-- Value of a hexadecimal digit character, `none` for a non-digit; both
letter cases accepted, as in the `hex` crate. -/
def hexDigitVal (c : Char) : Option Nat :=
  if '0' ≤ c ∧ c ≤ '9' then some (c.toNat - '0'.toNat)
  else if 'a' ≤ c ∧ c ≤ 'f' then some (c.toNat - 'a'.toNat + 10)
  else if 'A' ≤ c ∧ c ≤ 'F' then some (c.toNat - 'A'.toNat + 10)
  else none

/-- Semantics of `hex::decode` on a character list: pairs of hex digits
become bytes; odd length or any non-digit character fails. -/
def hexDecodeChars : List Char → Option (List Nat)
  | [] => some []
  | [_] => none
  | c1 :: c2 :: rest => do
    let hi ← hexDigitVal c1
    let lo ← hexDigitVal c2
    let tail ← hexDecodeChars rest
    pure ((hi * 16 + lo) :: tail)

/-- Semantics of `str::trim_start_matches("0x")`: repeatedly removes a
leading `0x` from the character list. -/
def trimStart0x : List Char → List Char
  | '0' :: 'x' :: rest => trimStart0x rest
  | s => s

/-- Removal of at most one leading `0x`, following the specification text
"stripping an optional 0x prefix"; kept separate from `trimStart0x`, the
embedding of what the source actually does. -/
def stripOnce0x : List Char → List Char
  | '0' :: 'x' :: rest => rest
  | s => s

/-- The only field of `EvmTransactionRequest` consulted by the fee
calculator: the optional hex string `data`. -/
structure EvmTransactionRequest where
  data : Option String
  deriving DecidableEq

/-- Byte list obtained from `tx.data` exactly as in
`calculate_compressed_tx_size`: strip every leading `0x`, hex-decode,
and fall back to the empty list when the field is absent or decoding
fails. -/
def txDataBytes (tx : EvmTransactionRequest) : List Nat :=
  (tx.data.bind fun s => hexDecodeChars (trimStart0x s.data)).getD []

/-- Embedding of `OptimismExtraFeeService::calculate_compressed_tx_size`:
count zero bytes, derive the non-zero count by `U256` subtraction from the
length, and evaluate `(Z*4 + N*16) / 16` with `U256` arithmetic. -/
def calculate_compressed_tx_size (tx : EvmTransactionRequest) : Nat :=
  let data_bytes := txDataBytes tx
  let zero_bytes := (data_bytes.filter fun b => b == 0).length
  let non_zero_bytes := u256sub data_bytes.length zero_bytes
  u256div (u256add (u256mul zero_bytes 4) (u256mul non_zero_bytes 16)) 16

/-- Byte string described by the claim text for the compressed size: the
hex decoding of `tx.data` after stripping at most one optional `0x`
prefix, empty on absence or decode failure. -/
def claimByteString (data : Option String) : List Nat :=
  (data.bind fun s => hexDecodeChars (stripOnce0x s.data)).getD []

/-- Compressed size as worded by the claim: `(Z*4 + N*16) / 16` over the
byte string of `claimByteString`. -/
def claimCompressedTxSize (data : Option String) : Nat :=
  let bs := claimByteString data
  let z := (bs.filter fun b => b == 0).length
  let n := (bs.filter fun b => b != 0).length
  (z * 4 + n * 16) / 16

/-- The six oracle scalars fetched as a group (`OptimismFeeData`). -/
structure OptimismFeeData where
  l1_base_fee : Nat
  base_fee : Nat
  decimals : Nat
  blob_base_fee : Nat
  base_fee_scalar : Nat
  blob_base_fee_scalar : Nat
  deriving DecidableEq

/-- The state an `OptimismExtraFeeService` value carries (the provider is
modelled separately as an oracle environment). -/
structure OptimismExtraFeeService where
  oracle_address : Nat
  deriving DecidableEq

/-- Embedding of `OptimismExtraFeeService::calculate_fee`: the weighted gas
price `16 sat* base_fee_scalar sat* l1_base_fee + blob_base_fee_scalar sat*
blob_base_fee` (wrapping addition) saturating-multiplied by the compressed
transaction size, always returned through `Ok`. -/
def OptimismExtraFeeService.calculate_fee (_svc : OptimismExtraFeeService)
    (fee_data : OptimismFeeData) (tx : EvmTransactionRequest) :
    Except TransactionError Nat :=
  let tx_compressed_size := calculate_compressed_tx_size tx
  let weighted_gas_price :=
    u256add (satMul (satMul 16 fee_data.base_fee_scalar) fee_data.l1_base_fee)
      (satMul fee_data.blob_base_fee_scalar fee_data.blob_base_fee)
  .ok (satMul tx_compressed_size weighted_gas_price)

/-- Modelled from the spec: the well-known oracle predeploy constant
`OPTIMISM_GAS_PRICE_ORACLE_ADDRESS`, whose definition lives in a constants
module outside the embedded sources; its value never matters to the
claims, only its identity. -/
def OPTIMISM_GAS_PRICE_ORACLE_ADDRESS : Nat := 0x420000000000000000000000000000000000000F

/-- Embedding of alloy's `TransactionRequest` restricted to the fields the
oracle client can set: `to` (a call target address, named `to_addr` here
because `to` is reserved in Lean) and `input` (the call data bytes); the
remaining fields are represented by optional scalars that stay `none` in
the default value. -/
structure TransactionRequest where
  to_addr : Option Nat
  input : List Nat
  gas : Option Nat
  gas_price : Option Nat
  value : Option Nat
  nonce : Option Nat
  deriving DecidableEq

/-- Default `TransactionRequest`: every field absent, empty input. -/
def TransactionRequest.default : TransactionRequest :=
  ⟨none, [], none, none, none, none⟩

/-- The four-byte function selectors of the Optimism `GasPriceOracle`,
copied from the source constants (decimal byte values as written there). -/
def FN_SELECTOR_L1_BASE_FEE : List Nat := [81, 155, 75, 211]

/-- Selector of `baseFee()`. -/
def FN_SELECTOR_BASE_FEE : List Nat := [110, 242, 92, 58]

/-- Selector of `decimals()`. -/
def FN_SELECTOR_DECIMALS : List Nat := [49, 60, 229, 103]

/-- Selector of `blobBaseFee()`. -/
def FN_SELECTOR_BLOB_BASE_FEE : List Nat := [248, 32, 97, 64]

/-- Selector of `baseFeeScalar()`. -/
def FN_SELECTOR_BASE_FEE_SCALAR : List Nat := [197, 152, 89, 24]

/-- Selector of `blobBaseFeeScalar()`. -/
def FN_SELECTOR_BLOB_BASE_FEE_SCALAR : List Nat := [104, 213, 220, 166]

/-- Embedding of `create_contract_call`: a request whose `to` is the oracle
address, whose `input` is exactly the selector bytes, and whose other
fields keep their default. -/
def create_contract_call (oracle_address : Nat) (selector : List Nat) :
    TransactionRequest :=
  { TransactionRequest.default with to_addr := some oracle_address, input := selector }

/-- Big-endian interpretation of a byte slice as an unsigned integer, the
semantics of `U256::from_be_slice` for slices of at most 32 bytes. -/
def from_be_slice (bytes : List Nat) : Nat :=
  bytes.foldl (fun acc b => acc * 256 + b) 0

/-- The provider seen by the oracle client, reduced to its one consulted
capability: `call_contract`, which maps a request to raw return bytes or an
error text. -/
structure OracleEnv where
  call : TransactionRequest → Except String (List Nat)

/-- Embedding of `read_u256`: build the call, run it, wrap failures in
`UnexpectedError`, and parse the returned bytes big-endian.  The final
`Nat` threads a count of contract calls performed. -/
def read_u256 (oracle_address : Nat) (env : OracleEnv) (selector : List Nat)
    (calls : Nat) : Except TransactionError Nat × Nat :=
  match env.call (create_contract_call oracle_address selector) with
  | .error e => (.error (.UnexpectedError e), calls + 1)
  | .ok bytes => (.ok (from_be_slice bytes), calls + 1)

/-- Embedding of `fetch_fee_data`: the six scalar reads (issued
concurrently through `try_join!` in the source, sequenced here), failing
as a whole when any read fails, with the join error re-wrapped in
`UnexpectedError` as by the source's `map_err`. -/
def OptimismExtraFeeService.fetch_fee_data (svc : OptimismExtraFeeService)
    (env : OracleEnv) (calls : Nat) :
    Except TransactionError OptimismFeeData × Nat :=
  match read_u256 svc.oracle_address env FN_SELECTOR_L1_BASE_FEE calls with
  | (.error e, c) => (.error (.UnexpectedError e.toMessage), c)
  | (.ok l1_base_fee, c1) =>
    match read_u256 svc.oracle_address env FN_SELECTOR_BASE_FEE c1 with
    | (.error e, c) => (.error (.UnexpectedError e.toMessage), c)
    | (.ok base_fee, c2) =>
      match read_u256 svc.oracle_address env FN_SELECTOR_DECIMALS c2 with
      | (.error e, c) => (.error (.UnexpectedError e.toMessage), c)
      | (.ok decimals, c3) =>
        match read_u256 svc.oracle_address env FN_SELECTOR_BLOB_BASE_FEE c3 with
        | (.error e, c) => (.error (.UnexpectedError e.toMessage), c)
        | (.ok blob_base_fee, c4) =>
          match read_u256 svc.oracle_address env FN_SELECTOR_BASE_FEE_SCALAR c4 with
          | (.error e, c) => (.error (.UnexpectedError e.toMessage), c)
          | (.ok base_fee_scalar, c5) =>
            match read_u256 svc.oracle_address env FN_SELECTOR_BLOB_BASE_FEE_SCALAR c5 with
            | (.error e, c) => (.error (.UnexpectedError e.toMessage), c)
            | (.ok blob_base_fee_scalar, c6) =>
              (.ok ⟨l1_base_fee, base_fee, decimals, blob_base_fee,
                base_fee_scalar, blob_base_fee_scalar⟩, c6)

/-- The network identity consulted by the factory.  The classification
predicate is modelled from the spec: `is_optimism` is provided by the
network model outside the embedded sources, so it appears as an opaque
boolean attribute of the network value. -/
structure EvmNetwork where
  chain_id : Nat
  is_optimism : Bool
  deriving DecidableEq

/-- The closed sum type `L2FeeData`, today with its single variant. -/
inductive L2FeeData where
  | Optimism (data : OptimismFeeData)
  deriving DecidableEq

/-- The closed sum type `L2FeeService`, today with its single variant. -/
inductive L2FeeService where
  | Optimism (svc : OptimismExtraFeeService)
  deriving DecidableEq

/-- Embedding of `L2FeeService::fetch_fee_data`. -/
def L2FeeService.fetch_fee_data (svc : L2FeeService) (env : OracleEnv)
    (calls : Nat) : Except TransactionError L2FeeData × Nat :=
  match svc with
  | .Optimism s =>
    match s.fetch_fee_data env calls with
    | (.error e, c) => (.error e, c)
    | (.ok d, c) => (.ok (.Optimism d), c)

/-- Embedding of `L2FeeService::calculate_fee`: the exhaustive match over
the service/data variant pair. -/
def L2FeeService.calculate_fee (svc : L2FeeService) (fee_data : L2FeeData)
    (tx : EvmTransactionRequest) : Except TransactionError Nat :=
  match svc, fee_data with
  | .Optimism s, .Optimism d => s.calculate_fee d tx

/-- Embedding of `l2_fee_service_factory`: an Optimism service (holding
the oracle address installed by `OptimismExtraFeeService::new`) when the
network is Optimism-family, otherwise nothing. -/
def l2_fee_service_factory (network : EvmNetwork) : Option L2FeeService :=
  if network.is_optimism then
    some (.Optimism ⟨OPTIMISM_GAS_PRICE_ORACLE_ADDRESS⟩)
  else
    none

/-- Embedding of `NetworkExtraFeeCalculatorService::get_extra_fee`:
consult the factory, return zero for non-L2 networks, otherwise fetch the
fee data and run the calculator, propagating errors.  The second component
counts the oracle contract calls performed. -/
def get_extra_fee (network : EvmNetwork) (env : OracleEnv)
    (tx : EvmTransactionRequest) : Except TransactionError Nat × Nat :=
  match l2_fee_service_factory network with
  | some l2_fee_service =>
    match l2_fee_service.fetch_fee_data env 0 with
    | (.error e, c) => (.error e, c)
    | (.ok fee_data, c) =>
      match l2_fee_service.calculate_fee fee_data tx with
      | .error e => (.error e, c)
      | .ok fee => (.ok fee, c)
  | none => (.ok 0, 0)

/-- Lookup in an association list keyed by chain id, the embedding of a
`DashMap` get. -/
def lookupA {α : Type} : List (Nat × α) → Nat → Option α
  | [], _ => none
  | (k, v) :: rest, key => if k = key then some v else lookupA rest key

/-- Insert-or-replace in an association list, the embedding of a `DashMap`
insert (the old value, if any, is overwritten in place). -/
def insertA {α : Type} : List (Nat × α) → Nat → α → List (Nat × α)
  | [], key, v => [(key, v)]
  | (k, w) :: rest, key, v =>
    if k = key then (key, v) :: rest else (k, w) :: insertA rest key v

/-- Removal from an association list, the embedding of a `DashMap` remove;
returns the removed value alongside the remaining list. -/
def removeA {α : Type} : List (Nat × α) → Nat → Option α × List (Nat × α)
  | [], _ => (none, [])
  | (k, v) :: rest, key =>
    if k = key then (some v, rest)
    else
      let (r, rest2) := removeA rest key
      (r, (k, v) :: rest2)

/-- The `FeeHistory` payload carried opaquely by the cache.  The source
structure also holds two `f64` series (`gas_used_ratio`,
`blob_gas_used_ratio`); every claim treats the whole structure as an
opaque cloned value, so only its integer-valued fields are represented. -/
structure FeeHistory where
  oldest_block : Nat
  base_fee_per_gas : List Nat
  reward : Option (List (List Nat))
  base_fee_per_blob_gas : List Nat
  deriving DecidableEq

/-- Per-chain cache configuration `GasPriceCacheConfig`. -/
structure GasPriceCacheConfig where
  enabled : Bool
  stale_after_ms : Nat
  expire_after_ms : Nat
  deriving DecidableEq

/-- Embedding of `GasPriceCacheConfig::validate`: durations must be
positive and expiry strictly later than staleness. -/
def GasPriceCacheConfig.validate (cfg : GasPriceCacheConfig) : Bool :=
  decide (0 < cfg.stale_after_ms) && decide (0 < cfg.expire_after_ms) &&
    decide (cfg.stale_after_ms < cfg.expire_after_ms)

/-- A cache entry (`GasPriceCacheEntry`); instants and durations are in
milliseconds. -/
structure GasPriceCacheEntry where
  gas_price : Nat
  base_fee_per_gas : Nat
  fee_history : FeeHistory
  l2_fee_data : Option L2FeeData
  fetched_at : Nat
  stale_after : Nat
  expire_after : Nat
  deriving DecidableEq

/-- Age of an entry at observation instant `now`, the embedding of
`fetched_at.elapsed()` (monotone clock, so truncated subtraction is
exact). -/
def GasPriceCacheEntry.age (e : GasPriceCacheEntry) (now : Nat) : Nat :=
  now - e.fetched_at

/-- Embedding of `GasPriceCacheEntry::is_fresh`. -/
def GasPriceCacheEntry.is_fresh (e : GasPriceCacheEntry) (now : Nat) : Bool :=
  decide (e.age now < e.stale_after)

/-- Embedding of `GasPriceCacheEntry::is_stale`. -/
def GasPriceCacheEntry.is_stale (e : GasPriceCacheEntry) (now : Nat) : Bool :=
  decide (e.stale_after ≤ e.age now ∧ e.age now < e.expire_after)

/-- Embedding of `GasPriceCacheEntry::is_expired`. -/
def GasPriceCacheEntry.is_expired (e : GasPriceCacheEntry) (now : Nat) : Bool :=
  decide (e.expire_after ≤ e.age now)

/-- The snapshot returned to readers (`GasPriceSnapshot`). -/
structure GasPriceSnapshot where
  gas_price : Nat
  base_fee_per_gas : Nat
  fee_history : FeeHistory
  is_stale : Bool
  deriving DecidableEq

/-- The cache state (`GasPriceCache`): the three concurrent maps, as
association lists keyed by chain id. -/
structure GasPriceCache where
  entries : List (Nat × GasPriceCacheEntry)
  network_configs : List (Nat × GasPriceCacheConfig)
  refreshing_networks : List (Nat × Nat)
  deriving DecidableEq

/-- Embedding of `GasPriceCache::get_snapshot`.  The pair threads the
cache state through unchanged, mirroring that the source only performs
reads; evaluation at a fixed `now` collapses the repeated clock reads of
the source into one observation instant. -/
def GasPriceCache.get_snapshot (c : GasPriceCache) (now chain_id : Nat) :
    Option GasPriceSnapshot × GasPriceCache :=
  match lookupA c.network_configs chain_id with
  | none => (none, c)
  | some config =>
    if !config.enabled then (none, c)
    else
      match lookupA c.entries chain_id with
      | some cached =>
        if cached.is_fresh now || cached.is_stale now then
          (some ⟨cached.gas_price, cached.base_fee_per_gas,
            cached.fee_history, cached.is_stale now⟩, c)
        else (none, c)
      | none => (none, c)

/-- Embedding of `GasPriceCache::set`: unconditional insert-or-replace of
the entry, with no look at the configuration. -/
def GasPriceCache.set (c : GasPriceCache) (chain_id : Nat)
    (entry : GasPriceCacheEntry) : GasPriceCache :=
  { c with entries := insertA c.entries chain_id entry }

/-- Embedding of `GasPriceCache::set_snapshot`: a no-op without an enabled
configuration, otherwise a `GasPriceCacheEntry::new` (stamping
`fetched_at := now`, no L2 data, durations from the configuration)
installed through `set`. -/
def GasPriceCache.set_snapshot (c : GasPriceCache) (now chain_id : Nat)
    (gas_price base_fee_per_gas : Nat) (fee_history : FeeHistory) :
    GasPriceCache :=
  match lookupA c.network_configs chain_id with
  | none => c
  | some cfg =>
    if !cfg.enabled then c
    else
      c.set chain_id
        ⟨gas_price, base_fee_per_gas, fee_history, none, now,
          cfg.stale_after_ms, cfg.expire_after_ms⟩

/-- Embedding of `GasPriceCache::get`: a clone of the full entry,
regardless of freshness. -/
def GasPriceCache.get (c : GasPriceCache) (chain_id : Nat) :
    Option GasPriceCacheEntry :=
  lookupA c.entries chain_id

/-- Embedding of `GasPriceCache::update`: apply the mutator to the entry
under its write lock (in the sequential embedding, replace the entry value
in place), or fail with the source's `NetworkConfiguration("Cache entry
not found")` error when no entry exists. -/
def GasPriceCache.update (c : GasPriceCache) (chain_id : Nat)
    (updater : GasPriceCacheEntry → GasPriceCacheEntry) :
    Except TransactionError Unit × GasPriceCache :=
  match lookupA c.entries chain_id with
  | some cached =>
    (.ok (), { c with entries := insertA c.entries chain_id (updater cached) })
  | none => (.error (.NetworkConfiguration "Cache entry not found"), c)

/-- Embedding of `GasPriceCache::refresh_network_in_background` up to the
point where the asynchronous refresh task is spawned: sweep markers at
least as old as the stuck-refresh timeout, then insert `(chain_id, now)`
(a `DashMap` insert, which overwrites any surviving marker and reports
whether one existed), returning `false` when a marker survived and `true`
when the refresh was scheduled.  The spawned task itself (provider RPCs
and the final insert/unregister) is outside the sequential embedding. -/
def GasPriceCache.refresh_network_in_background (c : GasPriceCache)
    (now chain_id timeout : Nat) : Bool × GasPriceCache :=
  let swept := c.refreshing_networks.filter fun p => decide (now - p.2 < timeout)
  let already_refreshing := (lookupA swept chain_id).isSome
  let c2 := { c with refreshing_networks := insertA swept chain_id now }
  if already_refreshing then (false, c2) else (true, c2)

/-- Looking up the key just inserted finds the new value. -/
theorem lookupA_insertA_self {α : Type} (l : List (Nat × α)) (k : Nat) (v : α) :
    lookupA (insertA l k v) k = some v := by
  induction l with
  | nil => simp [insertA, lookupA]
  | cons p rest ih =>
    obtain ⟨k2, w⟩ := p
    by_cases h : k2 = k
    · simp [insertA, h, lookupA]
    · simp [insertA, h, lookupA, ih]

/-- Insertion leaves every other key's binding alone. -/
theorem lookupA_insertA_ne {α : Type} (l : List (Nat × α)) (k key : Nat) (v : α)
    (h : key ≠ k) : lookupA (insertA l k v) key = lookupA l key := by
  have hne : ¬(k = key) := fun hh => h hh.symm
  induction l with
  | nil => simp [insertA, lookupA, hne]
  | cons p rest ih =>
    obtain ⟨k2, w⟩ := p
    by_cases h2 : k2 = k
    · subst h2
      simp [insertA, lookupA, hne]
    · simp [insertA, h2, lookupA, ih]

/-- Every byte is either zero or non-zero: the two filters partition the
list. -/
theorem filter_zero_partition (l : List Nat) :
    (l.filter fun b => b == 0).length + (l.filter fun b => b != 0).length
      = l.length := by
  induction l with
  | nil => simp
  | cons b t ih =>
    by_cases h : b = 0 <;> simp [List.filter_cons, h, ← ih] <;> omega

/-- Folding the big-endian accumulator from an arbitrary start. -/
theorem from_be_slice_acc (bs : List Nat) (acc : Nat) :
    bs.foldl (fun a b => a * 256 + b) acc
      = acc * 256 ^ bs.length + from_be_slice bs := by
  induction bs generalizing acc with
  | nil => simp [from_be_slice]
  | cons b t ih =>
    have hb : from_be_slice (b :: t) = b * 256 ^ t.length + from_be_slice t := by
      have h1 : from_be_slice (b :: t) = t.foldl (fun a c => a * 256 + c) b := by
        simp [from_be_slice]
      rw [h1, ih b]
    simp only [List.foldl_cons, List.length_cons]
    rw [ih (acc * 256 + b), hb, pow_succ]
    ring

/-- MSB-first reading: the head byte carries weight `256 ^ length` of the
tail. -/
theorem from_be_slice_cons (b : Nat) (bs : List Nat) :
    from_be_slice (b :: bs) = b * 256 ^ bs.length + from_be_slice bs := by
  have h1 : from_be_slice (b :: bs) = bs.foldl (fun a c => a * 256 + c) b := by
    simp [from_be_slice]
  rw [h1, from_be_slice_acc bs b]

/-- Leading zero bytes do not change the parsed value. -/
theorem from_be_slice_pad (k : Nat) (bs : List Nat) :
    from_be_slice (List.replicate k 0 ++ bs) = from_be_slice bs := by
  induction k with
  | zero => simp
  | succ n ih =>
    rw [List.replicate_succ, List.cons_append, from_be_slice_cons, ih]
    omega

/-- A byte string parses below `256 ^ length`. -/
theorem from_be_slice_lt (bs : List Nat) (h : ∀ b ∈ bs, b < 256) :
    from_be_slice bs < 256 ^ bs.length := by
  induction bs with
  | nil => simp [from_be_slice]
  | cons b t ih =>
    rw [from_be_slice_cons]
    have hb : b < 256 := h b (List.mem_cons_self _ _)
    have ht := ih fun x hx => h x (List.mem_cons_of_mem _ hx)
    have h1 : (b + 1) * 256 ^ t.length ≤ 256 * 256 ^ t.length :=
      Nat.mul_le_mul_right _ (by omega)
    have h2 : 256 * 256 ^ t.length = 256 ^ (t.length + 1) := by
      rw [pow_succ]; ring
    simp only [List.length_cons]
    have h3 : (b + 1) * 256 ^ t.length = b * 256 ^ t.length + 256 ^ t.length := by
      ring
    omega

/-- An entry reads as fresh-or-stale exactly when it is not expired, as
soon as its staleness threshold does not exceed its expiry threshold. -/
theorem fresh_or_stale_eq_not_expired (e : GasPriceCacheEntry) (now : Nat)
    (h : e.stale_after ≤ e.expire_after) :
    (e.is_fresh now || e.is_stale now) = !(e.is_expired now) := by
  unfold GasPriceCacheEntry.is_fresh GasPriceCacheEntry.is_stale
    GasPriceCacheEntry.is_expired GasPriceCacheEntry.age
  by_cases h1 : now - e.fetched_at < e.stale_after <;>
    by_cases h2 : e.expire_after ≤ now - e.fetched_at <;>
      simp [h1, h2] <;> omega

/-- Claim C1: for every oracle snapshot and every transaction,
`calculate_fee` returns `Ok(extra)` with `extra = compressed_size sat* W`
and `W = (16 sat* base_fee_scalar sat* l1_base_fee) + (blob_base_fee_scalar
sat* blob_base_fee)` (saturating multiplications, ordinary 256-bit
addition); `base_fee` and `decimals` do not affect the result. -/
theorem C1_calculate_fee_formula (svc : OptimismExtraFeeService)
    (fee_data : OptimismFeeData) (tx : EvmTransactionRequest) :
    svc.calculate_fee fee_data tx =
      .ok (satMul (calculate_compressed_tx_size tx)
        (u256add (satMul (satMul 16 fee_data.base_fee_scalar) fee_data.l1_base_fee)
          (satMul fee_data.blob_base_fee_scalar fee_data.blob_base_fee))) ∧
    (∀ b d, svc.calculate_fee
        { fee_data with base_fee := b, decimals := d } tx =
      svc.calculate_fee fee_data tx) :=
  ⟨rfl, fun _ _ => rfl⟩

/-- Claim C2, counterexample: on `tx.data = "0x0xff"` the source strips
the `0x` prefix repeatedly (`trim_start_matches`) and decodes one
non-zero byte, giving compressed size 1, whereas the claim's byte string
(hex-decoding after stripping a single optional `0x` prefix, empty on
decode failure) is empty, giving 0. -/
theorem C2_counterexample_repeated_prefix :
    calculate_compressed_tx_size ⟨some "0x0xff"⟩ = 1 ∧
    claimCompressedTxSize (some "0x0xff") = 0 := by
  constructor <;> decide

/-- Claim C2 as amended: the compressed transaction size equals
`(Z*4 + N*16) / 16` where `Z` and `N` count the zero and non-zero bytes
of the string obtained by hex-decoding `tx.data` after repeatedly
stripping every leading `0x` prefix (absent data or failed decoding give
the empty byte string); stated for byte strings of a length any Rust
vector can reach, where the `U256` arithmetic cannot wrap. -/
theorem C2_compressed_size_amended (tx : EvmTransactionRequest)
    (h : (txDataBytes tx).length ≤ 2 ^ 64) :
    calculate_compressed_tx_size tx =
      (((txDataBytes tx).filter fun b => b == 0).length * 4 +
        ((txDataBytes tx).filter fun b => b != 0).length * 16) / 16 ∧
    (tx.data = none → calculate_compressed_tx_size tx = 0) := by
  have hmain : calculate_compressed_tx_size tx =
      (((txDataBytes tx).filter fun b => b == 0).length * 4 +
        ((txDataBytes tx).filter fun b => b != 0).length * 16) / 16 := by
    simp only [calculate_compressed_tx_size, u256div, u256add, u256mul, u256sub,
      U256_MOD]
    have hpart := filter_zero_partition (txDataBytes tx)
    set bs := txDataBytes tx with hbs
    set z := (bs.filter fun b => b == 0).length with hzdef
    set n := (bs.filter fun b => b != 0).length with hndef
    have hlen : bs.length ≤ 2 ^ 64 := h
    have hpow : (2 : Nat) ^ 64 * 16 < 2 ^ 256 := by norm_num
    have hz4 : z * 4 < 2 ^ 256 := by
      have : z ≤ 2 ^ 64 := by omega
      have : z * 4 ≤ 2 ^ 64 * 4 := Nat.mul_le_mul_right 4 this
      omega
    have hn16 : n * 16 < 2 ^ 256 := by
      have : n ≤ 2 ^ 64 := by omega
      have : n * 16 ≤ 2 ^ 64 * 16 := Nat.mul_le_mul_right 16 this
      omega
    have hsum : z * 4 + n * 16 < 2 ^ 256 := by
      have h1 : z + n ≤ 2 ^ 64 := by omega
      have h2 : z * 4 + n * 16 ≤ (z + n) * 16 := by omega
      have h3 : (z + n) * 16 ≤ 2 ^ 64 * 16 := Nat.mul_le_mul_right 16 h1
      omega
    have hsub : (bs.length + 2 ^ 256 - z) % 2 ^ 256 = n := by
      have h1 : bs.length + 2 ^ 256 - z = n + 2 ^ 256 := by omega
      rw [h1, Nat.add_mod_right, Nat.mod_eq_of_lt (by omega)]
    rw [hsub, Nat.mod_eq_of_lt hz4, Nat.mod_eq_of_lt hn16, Nat.mod_eq_of_lt hsum]
  exact ⟨hmain, fun hd => by rw [hmain]; simp [txDataBytes, hd]⟩

/-- Claim C2, witness: the specification's own worked example, `0x` plus
eight zero bytes plus eight non-zero bytes, compresses to
`(8*4 + 8*16) / 16 = 10`. -/
theorem C2_compressed_size_witness :
    calculate_compressed_tx_size ⟨some "0x0000000000000000ffffffffffffffff"⟩ = 10 := by
  have h := C2_compressed_size_amended
    ⟨some "0x0000000000000000ffffffffffffffff"⟩ (by decide)
  rw [h.1]
  decide

/-- Claim C5: for every cache entry whose thresholds satisfy
`0 < stale_after < expire_after` and every observation instant, exactly
one of `is_fresh`, `is_stale`, `is_expired` holds. -/
theorem C5_freshness_partition (e : GasPriceCacheEntry) (now : Nat)
    (h0 : 0 < e.stale_after) (h1 : e.stale_after < e.expire_after) :
    (e.is_fresh now = true ∧ e.is_stale now = false ∧ e.is_expired now = false) ∨
    (e.is_fresh now = false ∧ e.is_stale now = true ∧ e.is_expired now = false) ∨
    (e.is_fresh now = false ∧ e.is_stale now = false ∧ e.is_expired now = true) := by
  simp only [GasPriceCacheEntry.is_fresh, GasPriceCacheEntry.is_stale,
    GasPriceCacheEntry.is_expired, GasPriceCacheEntry.age,
    decide_eq_true_eq, decide_eq_false_iff_not, not_lt, not_le, not_and]
  omega

/-- Claim C5, witness: a just-created entry with thresholds 10 and 20
observed at age 5 is fresh and only fresh. -/
theorem C5_freshness_partition_witness :
    let e : GasPriceCacheEntry := ⟨1, 2, ⟨0, [], none, []⟩, none, 0, 10, 20⟩
    (e.is_fresh 5 = true ∧ e.is_stale 5 = false ∧ e.is_expired 5 = false) ∨
    (e.is_fresh 5 = false ∧ e.is_stale 5 = true ∧ e.is_expired 5 = false) ∨
    (e.is_fresh 5 = false ∧ e.is_stale 5 = false ∧ e.is_expired 5 = true) :=
  C5_freshness_partition ⟨1, 2, ⟨0, [], none, []⟩, none, 0, 10, 20⟩ 5
    (by decide) (by decide)

/-- Claim C6: `update` on a chain with no entry fails with the not-found
error (`NetworkConfiguration("Cache entry not found")`) and leaves the
cache unchanged; on an existing entry it applies the mutator to that
entry in place and returns `Ok(())`, touching no other binding and
neither the configuration nor the refresh map. -/
theorem C6_update_contract (c : GasPriceCache) (chain_id : Nat)
    (updater : GasPriceCacheEntry → GasPriceCacheEntry) :
    (lookupA c.entries chain_id = none →
      c.update chain_id updater =
        (.error (.NetworkConfiguration "Cache entry not found"), c)) ∧
    (∀ e, lookupA c.entries chain_id = some e →
      (c.update chain_id updater).1 = .ok () ∧
      lookupA (c.update chain_id updater).2.entries chain_id = some (updater e) ∧
      (∀ k, k ≠ chain_id →
        lookupA (c.update chain_id updater).2.entries k = lookupA c.entries k) ∧
      (c.update chain_id updater).2.network_configs = c.network_configs ∧
      (c.update chain_id updater).2.refreshing_networks = c.refreshing_networks) := by
  constructor
  · intro hnone
    unfold GasPriceCache.update
    rw [hnone]
  · intro e he
    unfold GasPriceCache.update
    rw [he]
    exact ⟨rfl, lookupA_insertA_self _ _ _,
      fun k hk => lookupA_insertA_ne _ _ _ _ hk, rfl, rfl⟩

/-- Claim C6, witness: on the empty cache, `update` of chain 1 fails with
the not-found error and changes nothing; after installing an entry,
`update` succeeds and the mutated value is observable. -/
theorem C6_update_witness :
    (GasPriceCache.update ⟨[], [], []⟩ 1 id =
      (.error (.NetworkConfiguration "Cache entry not found"), ⟨[], [], []⟩)) ∧
    (GasPriceCache.update
        ⟨[(1, ⟨7, 8, ⟨0, [], none, []⟩, none, 0, 10, 20⟩)], [], []⟩ 1
        (fun e => { e with gas_price := 25 })).1 = .ok () ∧
    lookupA (GasPriceCache.update
        ⟨[(1, ⟨7, 8, ⟨0, [], none, []⟩, none, 0, 10, 20⟩)], [], []⟩ 1
        (fun e => { e with gas_price := 25 })).2.entries 1 =
      some ⟨25, 8, ⟨0, [], none, []⟩, none, 0, 10, 20⟩ :=
  ⟨(C6_update_contract ⟨[], [], []⟩ 1 id).1 rfl,
    ((C6_update_contract ⟨[(1, ⟨7, 8, ⟨0, [], none, []⟩, none, 0, 10, 20⟩)], [], []⟩ 1
      (fun e => { e with gas_price := 25 })).2 _ rfl).1,
    ((C6_update_contract ⟨[(1, ⟨7, 8, ⟨0, [], none, []⟩, none, 0, 10, 20⟩)], [], []⟩ 1
      (fun e => { e with gas_price := 25 })).2 _ rfl).2.1⟩

/-- Claim C7: for a chain without configuration, or whose configuration
has `enabled = false`, `set_snapshot` is a no-op on the whole cache
state; and with a disabled configuration, `get_snapshot` returns `none`
at every instant even after an entry was installed through the
unconditional `set`. -/
theorem C7_disabled_config (c : GasPriceCache)
    (now chain_id gas_price base_fee : Nat) (fh : FeeHistory) :
    (lookupA c.network_configs chain_id = none →
      c.set_snapshot now chain_id gas_price base_fee fh = c) ∧
    (∀ cfg, lookupA c.network_configs chain_id = some cfg →
      cfg.enabled = false →
      c.set_snapshot now chain_id gas_price base_fee fh = c) ∧
    (∀ cfg entry now2, lookupA c.network_configs chain_id = some cfg →
      cfg.enabled = false →
      ((c.set chain_id entry).get_snapshot now2 chain_id).1 = none) := by
    refine ⟨?_, ?_, ?_⟩
    · intro hnone
      unfold GasPriceCache.set_snapshot
      rw [hnone]
    · intro cfg hcfg hdis
      unfold GasPriceCache.set_snapshot
      rw [hcfg]
      simp [hdis]
    · intro cfg entry now2 hcfg hdis
      unfold GasPriceCache.get_snapshot
      have hcfg2 : lookupA (c.set chain_id entry).network_configs chain_id = some cfg := hcfg
      rw [hcfg2]
      simp [hdis]

/-- Claim C7, witness: with chain 1 configured disabled, `set_snapshot`
leaves the concrete cache untouched, and `get_snapshot` still answers
`none` right after a manual `set` of a brand-new entry. -/
theorem C7_disabled_config_witness :
    (GasPriceCache.set_snapshot ⟨[], [(1, ⟨false, 10, 20⟩)], []⟩ 0 1 7 8
      ⟨0, [], none, []⟩ = ⟨[], [(1, ⟨false, 10, 20⟩)], []⟩) ∧
    ((GasPriceCache.set ⟨[], [(1, ⟨false, 10, 20⟩)], []⟩ 1
        ⟨7, 8, ⟨0, [], none, []⟩, none, 0, 10, 20⟩).get_snapshot 0 1).1 = none :=
  ⟨((C7_disabled_config ⟨[], [(1, ⟨false, 10, 20⟩)], []⟩ 0 1 7 8
      ⟨0, [], none, []⟩).2.1 _ rfl rfl),
    ((C7_disabled_config ⟨[], [(1, ⟨false, 10, 20⟩)], []⟩ 0 1 7 8
      ⟨0, [], none, []⟩).2.2 _ ⟨7, 8, ⟨0, [], none, []⟩, none, 0, 10, 20⟩ 0 rfl rfl)⟩

/-- Claim C9: for every network the factory does not classify as
Optimism-family, `get_extra_fee` returns `Ok(0)` without performing any
oracle contract call, whatever the provider would answer and whatever the
transaction is. -/
theorem C9_non_l2_zero_fee (network : EvmNetwork)
    (h : network.is_optimism = false) (env : OracleEnv)
    (tx : EvmTransactionRequest) :
    get_extra_fee network env tx = (.ok 0, 0) := by
  unfold get_extra_fee l2_fee_service_factory
  rw [h]
  simp

/-- Claim C9, witness: a non-Optimism network with an unreachable
provider still yields fee 0 and zero oracle calls. -/
theorem C9_non_l2_zero_fee_witness :
    get_extra_fee ⟨1, false⟩ ⟨fun _ => .error "provider down"⟩ ⟨some "0xff"⟩ =
      (.ok 0, 0) :=
  C9_non_l2_zero_fee ⟨1, false⟩ rfl ⟨fun _ => .error "provider down"⟩ ⟨some "0xff"⟩

/-- Claim C10: `L2FeeService::calculate_fee` succeeds on every
constructible service value, fee-data value and transaction (both sum
types are closed with the single Optimism variant, so the variant
mismatch is unreachable and the Optimism calculator always returns
`Ok`); consequently an error coming out of `get_extra_fee` can only have
been produced by `fetch_fee_data`. -/
theorem C10_calculate_fee_total :
    (∀ (svc : L2FeeService) (fee_data : L2FeeData) (tx : EvmTransactionRequest),
      ∃ v, svc.calculate_fee fee_data tx = .ok v) ∧
    (∀ (network : EvmNetwork) (env : OracleEnv) (tx : EvmTransactionRequest)
      (e : TransactionError), (get_extra_fee network env tx).1 = .error e →
      ∃ svc, l2_fee_service_factory network = some svc ∧
        (svc.fetch_fee_data env 0).1 = .error e) := by
  constructor
  · intro svc fee_data tx
    obtain ⟨s⟩ := svc
    obtain ⟨d⟩ := fee_data
    exact ⟨_, rfl⟩
  · intro network env tx e h
    unfold get_extra_fee at h
    cases hf : l2_fee_service_factory network with
    | none =>
      simp only [hf] at h
      exact absurd h (by simp)
    | some svc =>
      simp only [hf] at h
      refine ⟨svc, rfl, ?_⟩
      cases hd : svc.fetch_fee_data env 0 with
      | mk r calls =>
        simp only [hd] at h
        cases r with
        | error e2 => simpa using h
        | ok d =>
          obtain ⟨s⟩ := svc
          obtain ⟨dd⟩ := d
          simp [L2FeeService.calculate_fee,
            OptimismExtraFeeService.calculate_fee] at h

/-- Claim C10, witness: with a failing provider on an Optimism network,
the error surfaced by `get_extra_fee` is exactly the fetch error. -/
theorem C10_calculate_fee_total_witness :
    (∃ v, L2FeeService.calculate_fee
      (.Optimism ⟨OPTIMISM_GAS_PRICE_ORACLE_ADDRESS⟩)
      (.Optimism ⟨1, 2, 3, 4, 5, 6⟩) ⟨some "0xff"⟩ = .ok v) ∧
    (∃ svc, l2_fee_service_factory ⟨10, true⟩ = some svc ∧
      (svc.fetch_fee_data ⟨fun _ => .error "boom"⟩ 0).1 =
        .error (.UnexpectedError "boom")) :=
  ⟨C10_calculate_fee_total.1 (.Optimism ⟨OPTIMISM_GAS_PRICE_ORACLE_ADDRESS⟩)
      (.Optimism ⟨1, 2, 3, 4, 5, 6⟩) ⟨some "0xff"⟩,
    C10_calculate_fee_total.2 ⟨10, true⟩ ⟨fun _ => .error "boom"⟩ ⟨some "0xff"⟩
      (.UnexpectedError "boom") rfl⟩

/-- Claim C3, counterexample: on a cache state holding an entry whose
thresholds are inverted (`stale_after = 10 > expire_after = 5`, a state
reachable through the unvalidated `set`/`update` operations), observed at
age 7, the entry is simultaneously fresh and expired, and `get_snapshot`
returns a snapshot although the claim demands `None` whenever the entry
is expired. -/
theorem C3_counterexample_fresh_yet_expired :
    ((GasPriceCache.get_snapshot
        ⟨[(1, ⟨7, 9, ⟨0, [], none, []⟩, none, 0, 10, 5⟩)],
          [(1, ⟨true, 10, 5⟩)], []⟩ 7 1).1 =
      some ⟨7, 9, ⟨0, [], none, []⟩, false⟩) ∧
    GasPriceCacheEntry.is_expired ⟨7, 9, ⟨0, [], none, []⟩, none, 0, 10, 5⟩ 7
      = true := by
  constructor <;> decide

/-- Claim C3 as amended: when every entry stored for the chain satisfies
`stale_after ≤ expire_after` (as all entries produced from validated
configurations do), `get_snapshot` returns `None` exactly when there is
no config, the config is disabled, there is no entry, or the entry is
expired; otherwise it returns the entry's components with the staleness
flag, and the cache state is left untouched. -/
theorem C3_get_snapshot_amended (c : GasPriceCache) (now chain_id : Nat)
    (hwf : ∀ e, lookupA c.entries chain_id = some e →
      e.stale_after ≤ e.expire_after) :
    ((c.get_snapshot now chain_id).1 = none ↔
      lookupA c.network_configs chain_id = none ∨
      (∃ cfg, lookupA c.network_configs chain_id = some cfg ∧
        cfg.enabled = false) ∨
      lookupA c.entries chain_id = none ∨
      (∃ e, lookupA c.entries chain_id = some e ∧ e.is_expired now = true)) ∧
    (∀ cfg e, lookupA c.network_configs chain_id = some cfg →
      cfg.enabled = true → lookupA c.entries chain_id = some e →
      e.is_expired now = false →
      (c.get_snapshot now chain_id).1 =
        some ⟨e.gas_price, e.base_fee_per_gas, e.fee_history, e.is_stale now⟩) ∧
    (c.get_snapshot now chain_id).2 = c := by
  unfold GasPriceCache.get_snapshot
  cases hcfg : lookupA c.network_configs chain_id with
  | none => simp [hcfg]
  | some cfg =>
    cases hen : cfg.enabled with
    | false =>
      simp [hcfg, hen]
      intro cfg2 e h1 h2
      subst h1
      simp [hen] at h2
    | true =>
      cases hent : lookupA c.entries chain_id with
      | none => simp [hcfg, hen, hent]
      | some e =>
        have hkey := fresh_or_stale_eq_not_expired e now (hwf e hent)
        cases hexp : e.is_expired now with
        | false =>
          have hc : (e.is_fresh now || e.is_stale now) = true := by
            rw [hkey, hexp]; rfl
          simp [hcfg, hen, hent, hc, hexp]
        | true =>
          have hc : (e.is_fresh now || e.is_stale now) = false := by
            rw [hkey, hexp]; rfl
          simp [hcfg, hen, hent, hc, hexp]

/-- Claim C3, witness: an enabled chain with a stale entry (age 15,
thresholds 10 and 20) yields a snapshot carrying `is_stale = true`, and
the cache state is returned unchanged. -/
theorem C3_get_snapshot_witness :
    ((GasPriceCache.get_snapshot
        ⟨[(1, ⟨5, 6, ⟨0, [], none, []⟩, none, 0, 10, 20⟩)],
          [(1, ⟨true, 10, 20⟩)], []⟩ 15 1).1 =
      some ⟨5, 6, ⟨0, [], none, []⟩, true⟩) ∧
    (GasPriceCache.get_snapshot
        ⟨[(1, ⟨5, 6, ⟨0, [], none, []⟩, none, 0, 10, 20⟩)],
          [(1, ⟨true, 10, 20⟩)], []⟩ 15 1).2 =
      ⟨[(1, ⟨5, 6, ⟨0, [], none, []⟩, none, 0, 10, 20⟩)],
        [(1, ⟨true, 10, 20⟩)], []⟩ := by
  have h := C3_get_snapshot_amended
    ⟨[(1, ⟨5, 6, ⟨0, [], none, []⟩, none, 0, 10, 20⟩)],
      [(1, ⟨true, 10, 20⟩)], []⟩ 15 1
    (by intro e he; simp [lookupA] at he; subst he; decide)
  exact ⟨h.2.1 ⟨true, 10, 20⟩ ⟨5, 6, ⟨0, [], none, []⟩, none, 0, 10, 20⟩
    rfl rfl rfl rfl, h.2.2⟩

/-- Claim C4, counterexample: with a surviving marker `(1, 5)` and
`now = 10` (timeout 120), the call returns `false` but the marker is not
left unchanged: the `DashMap` insert that detects the prior entry also
overwrites its instant with `now`, moving it from 5 to 10. -/
theorem C4_counterexample_marker_overwritten :
    ((⟨[], [], [(1, 5)]⟩ : GasPriceCache).refresh_network_in_background
      10 1 120).1 = false ∧
    lookupA ((⟨[], [], [(1, 5)]⟩ : GasPriceCache).refresh_network_in_background
      10 1 120).2.refreshing_networks 1 = some 10 ∧
    lookupA (⟨[], [], [(1, 5)]⟩ : GasPriceCache).refreshing_networks 1 =
      some 5 := by
  refine ⟨?_, ?_, ?_⟩ <;> decide

/-- Claim C4 as amended: `refresh_network_in_background` first sweeps
markers at least as old as the stuck-refresh timeout; if a marker for the
chain survives the sweep it returns `false`, its only state changes being
the sweep removals and the overwrite of the surviving marker's instant
with `now`; when no marker survives it records `(chain_id, now)`, spawns
the refresh task, and returns `true`.  In both outcomes the entry and
configuration maps are untouched and the chain's marker afterwards reads
`now`. -/
theorem C4_single_flight_amended (c : GasPriceCache)
    (now chain_id timeout : Nat) :
    ((lookupA (c.refreshing_networks.filter fun p => decide (now - p.2 < timeout))
        chain_id).isSome = true →
      c.refresh_network_in_background now chain_id timeout =
        (false, { c with refreshing_networks := insertA (c.refreshing_networks.filter fun p => decide (now - p.2 < timeout)) chain_id now })) ∧
    ((lookupA (c.refreshing_networks.filter fun p => decide (now - p.2 < timeout))
        chain_id).isSome = false →
      c.refresh_network_in_background now chain_id timeout =
        (true, { c with refreshing_networks := insertA (c.refreshing_networks.filter fun p => decide (now - p.2 < timeout)) chain_id now })) ∧
    (c.refresh_network_in_background now chain_id timeout).2.entries =
      c.entries ∧
    (c.refresh_network_in_background now chain_id timeout).2.network_configs =
      c.network_configs ∧
    lookupA (c.refresh_network_in_background now chain_id
      timeout).2.refreshing_networks chain_id = some now := by
  cases h : (lookupA (c.refreshing_networks.filter fun p =>
      decide (now - p.2 < timeout)) chain_id).isSome with
  | true =>
    simp [GasPriceCache.refresh_network_in_background, h, lookupA_insertA_self]
  | false =>
    simp [GasPriceCache.refresh_network_in_background, h, lookupA_insertA_self]

/-- Claim C4, witness: with no marker the refresh is scheduled (`true`)
and `(1, 10)` is recorded; with a young surviving marker `(1, 5)` the
call returns `false`. -/
theorem C4_single_flight_witness :
    GasPriceCache.refresh_network_in_background ⟨[], [], []⟩ 10 1 120 =
      (true, ⟨[], [], [(1, 10)]⟩) ∧
    GasPriceCache.refresh_network_in_background ⟨[], [], [(1, 5)]⟩ 10 1 120 =
      (false, ⟨[], [], [(1, 10)]⟩) :=
  ⟨(C4_single_flight_amended ⟨[], [], []⟩ 10 1 120).2.1 (by decide),
    (C4_single_flight_amended ⟨[], [], [(1, 5)]⟩ 10 1 120).1 (by decide)⟩

/-- Claim C8: each oracle read builds a call request whose target is the
oracle address and whose input is exactly the four-byte selector from the
specification table, all other fields defaulted; and the returned byte
sequence is parsed as a big-endian unsigned integer of up to 256 bits,
with shorter payloads left-padded by zeros. -/
theorem C8_oracle_wire_contract :
    FN_SELECTOR_L1_BASE_FEE = [0x51, 0x9B, 0x4B, 0xD3] ∧
    FN_SELECTOR_BASE_FEE = [0x6E, 0xF2, 0x5C, 0x3A] ∧
    FN_SELECTOR_DECIMALS = [0x31, 0x3C, 0xE5, 0x67] ∧
    FN_SELECTOR_BLOB_BASE_FEE = [0xF8, 0x20, 0x61, 0x40] ∧
    FN_SELECTOR_BASE_FEE_SCALAR = [0xC5, 0x98, 0x59, 0x18] ∧
    FN_SELECTOR_BLOB_BASE_FEE_SCALAR = [0x68, 0xD5, 0xDC, 0xA6] ∧
    (∀ addr sel, create_contract_call addr sel =
      ⟨some addr, sel, none, none, none, none⟩) ∧
    (∀ b bs, from_be_slice (b :: bs) = b * 256 ^ bs.length + from_be_slice bs) ∧
    (∀ k bs, from_be_slice (List.replicate k 0 ++ bs) = from_be_slice bs) ∧
    (∀ bs, (∀ b ∈ bs, b < 256) → bs.length ≤ 32 →
      from_be_slice bs < 2 ^ 256) ∧
    (∀ addr env sel calls bytes,
      env.call (create_contract_call addr sel) = .ok bytes →
      read_u256 addr env sel calls = (.ok (from_be_slice bytes), calls + 1)) := by
  refine ⟨rfl, rfl, rfl, rfl, rfl, rfl, fun addr sel => rfl,
    from_be_slice_cons, from_be_slice_pad, ?_, ?_⟩
  · intro bs hb hlen
    have h1 := from_be_slice_lt bs hb
    have h2 : (256 : Nat) ^ bs.length ≤ 256 ^ 32 :=
      Nat.pow_le_pow_right (by norm_num) hlen
    have h3 : (256 : Nat) ^ 32 = 2 ^ 256 := by norm_num
    exact lt_of_lt_of_le h1 (le_trans h2 (le_of_eq h3))
  · intro addr env sel calls bytes hcall
    unfold read_u256
    rw [hcall]

/-- Claim C8, witness: a two-byte payload stays below `2 ^ 256`, and with
a provider answering `[0x12, 0x34]` the `l1BaseFee` read parses to
`0x1234` with exactly one contract call. -/
theorem C8_oracle_wire_witness :
    from_be_slice [0x12, 0x34] < 2 ^ 256 ∧
    read_u256 7 ⟨fun _ => .ok [0x12, 0x34]⟩ FN_SELECTOR_L1_BASE_FEE 0 =
      (.ok 0x1234, 1) := by
  refine ⟨C8_oracle_wire_contract.2.2.2.2.2.2.2.2.2.1 [0x12, 0x34]
    (by decide) (by decide), ?_⟩
  have h := C8_oracle_wire_contract.2.2.2.2.2.2.2.2.2.2 7
    ⟨fun _ => .ok [0x12, 0x34]⟩ FN_SELECTOR_L1_BASE_FEE 0 [0x12, 0x34] rfl
  rw [h]
  rfl
